import Mathlib

/-!
Shallow embedding of the video ingestion pipeline of the
`learn-file-storage-s3-golang-starter` repository (package `main`:
`getVideoAspectRatio`, `processVideoForFastStart`, `generatePresignedURL`,
`dbVideoToSignedVideo`, `handlerUploadVideo`), together with theorems
checking the specification's claims against it.

Modelling conventions:
* Go `float64` arithmetic in `getVideoAspectRatio` (one division and four
  comparisons against the literals 1.7, 1.8, 0.55, 0.58) is modelled
  exactly over `ℚ`.
* External collaborators (uuid parsing, JWT auth, the metadata store,
  `ffprobe`/`ffmpeg`, the object store, presigning) are modelled as an
  oracle record `UploadEnv` giving each fallible call's outcome; the
  handler's own control flow, status codes, messages and side effects are
  translated line by line from the source.
* Side effects are made explicit: the set of temporary files existing when
  the handler returns, the successful object-store writes, and the
  successful metadata-record updates, plus a trace of the steps attempted.
-/

namespace Tubely

/-- One stream entry of ffprobe's JSON output (`FFProbeOutput.Streams`):
the first stream's declared pixel dimensions. Go `int` is modelled as `Int`. -/
structure FFStream where
  width : Int
  height : Int
deriving DecidableEq

/-- The parsed ffprobe output: a list of streams (`FFProbeOutput`). -/
structure FFProbeOutput where
  streams : List FFStream
deriving DecidableEq

/-- The classification chain at the end of `getVideoAspectRatio`:
`if ratio >= 1.7 && ratio <= 1.8 { "16:9" } else if ratio >= 0.55 && ratio <= 0.58
{ "9:16" } else { "other" }`, with float64 comparisons modelled exactly on `ℚ`. -/
def classifyRatio (ratio : ℚ) : String :=
  if 17/10 ≤ ratio ∧ ratio ≤ 18/10 then "16:9"
  else if 11/20 ≤ ratio ∧ ratio ≤ 29/50 then "9:16"
  else "other"

/-- `getVideoAspectRatio`: the ffprobe invocation and JSON parse are the
oracle argument `probeResult` (`.error` covers both a failing `cmd.Run` and
an unparsable output); the stream checks, the dimension check, the ratio and
the classification follow the source. -/
def getVideoAspectRatio (probeResult : Except String FFProbeOutput) :
    Except String String :=
  match probeResult with
  | .error e => .error e
  | .ok output =>
    match output.streams with
    | [] => .error "no streams found in video"
    | s :: _ =>
      if s.width = 0 ∨ s.height = 0 then
        .error "invalid dimensions"
      else
        .ok (classifyRatio ((s.width : ℚ) / (s.height : ℚ)))

/-- The `switch aspectRatio` statement of `handlerUploadVideo` choosing the
key prefix: `"16:9"` ↦ `"landscape"`, `"9:16"` ↦ `"portrait"`, default
`"other"`. -/
def prefixFor (aspectRatio : String) : String :=
  if aspectRatio = "16:9" then "landscape"
  else if aspectRatio = "9:16" then "portrait"
  else "other"

lemma prefixFor_landscape_iff (a : String) :
    prefixFor a = "landscape" ↔ a = "16:9" := by
  unfold prefixFor
  split_ifs with h1 h2 <;> simp_all

lemma prefixFor_portrait_iff (a : String) :
    prefixFor a = "portrait" ↔ a = "9:16" := by
  unfold prefixFor
  split_ifs with h1 h2 <;> simp_all

lemma classifyRatio_landscape_iff (r : ℚ) :
    prefixFor (classifyRatio r) = "landscape" ↔ 17/10 ≤ r ∧ r ≤ 18/10 := by
  rw [prefixFor_landscape_iff]
  unfold classifyRatio
  split_ifs with h1 h2 <;> simp_all

lemma classifyRatio_portrait_iff (r : ℚ) :
    prefixFor (classifyRatio r) = "portrait" ↔ 11/20 ≤ r ∧ r ≤ 29/50 := by
  rw [prefixFor_portrait_iff]
  unfold classifyRatio
  split_ifs with h1 h2
  · constructor
    · intro h3
      exact absurd h3 (by simp)
    · intro h3
      exfalso
      linarith [h1.1, h3.2]
  · simp [h2]
  · constructor
    · intro h3
      exact absurd h3 (by simp)
    · intro h3
      exact absurd h3 h2

lemma classifyRatio_other_iff (r : ℚ) :
    prefixFor (classifyRatio r) = "other" ↔
      ¬(17/10 ≤ r ∧ r ≤ 18/10) ∧ ¬(11/20 ≤ r ∧ r ≤ 29/50) := by
  unfold classifyRatio prefixFor
  split_ifs with h1 h2 <;> simp_all

/-- Claim C1: for every probed video whose first stream has nonzero width `w`
and height `h`, `getVideoAspectRatio` succeeds and classifies the ratio
`r = w / h` so that the derived prefix is `landscape` exactly when
`r ∈ [1.70, 1.80]`, `portrait` exactly when `r ∈ [0.55, 0.58]`, and `other`
otherwise; the boundary ratios 1.70 and 1.80 classify as landscape and
0.549999 classifies as other. -/
theorem aspect_classification (w h : Int) (rest : List FFStream)
    (hw : w ≠ 0) (hh : h ≠ 0) :
    getVideoAspectRatio (.ok ⟨⟨w, h⟩ :: rest⟩) =
        .ok (classifyRatio ((w : ℚ) / (h : ℚ)))
    ∧ (prefixFor (classifyRatio ((w : ℚ) / (h : ℚ))) = "landscape" ↔
        17/10 ≤ (w : ℚ) / (h : ℚ) ∧ (w : ℚ) / (h : ℚ) ≤ 18/10)
    ∧ (prefixFor (classifyRatio ((w : ℚ) / (h : ℚ))) = "portrait" ↔
        11/20 ≤ (w : ℚ) / (h : ℚ) ∧ (w : ℚ) / (h : ℚ) ≤ 29/50)
    ∧ (prefixFor (classifyRatio ((w : ℚ) / (h : ℚ))) = "other" ↔
        ¬(17/10 ≤ (w : ℚ) / (h : ℚ) ∧ (w : ℚ) / (h : ℚ) ≤ 18/10)
        ∧ ¬(11/20 ≤ (w : ℚ) / (h : ℚ) ∧ (w : ℚ) / (h : ℚ) ≤ 29/50))
    ∧ prefixFor (classifyRatio (17/10)) = "landscape"
    ∧ prefixFor (classifyRatio (18/10)) = "landscape"
    ∧ prefixFor (classifyRatio (549999/1000000)) = "other" := by
  refine ⟨?_, classifyRatio_landscape_iff _, classifyRatio_portrait_iff _,
    classifyRatio_other_iff _,
    (classifyRatio_landscape_iff _).mpr (by norm_num),
    (classifyRatio_landscape_iff _).mpr (by norm_num),
    (classifyRatio_other_iff _).mpr (by norm_num)⟩
  unfold getVideoAspectRatio
  simp [hw, hh]

/-- Witness for C1 at a 1280×720 stream (ratio 16/9 ≈ 1.778). -/
theorem aspect_classification_witness :
    getVideoAspectRatio (.ok ⟨[⟨1280, 720⟩]⟩) =
        .ok (classifyRatio ((1280 : ℚ) / (720 : ℚ)))
    ∧ (prefixFor (classifyRatio ((1280 : ℚ) / (720 : ℚ))) = "landscape" ↔
        17/10 ≤ (1280 : ℚ) / (720 : ℚ) ∧ (1280 : ℚ) / (720 : ℚ) ≤ 18/10)
    ∧ (prefixFor (classifyRatio ((1280 : ℚ) / (720 : ℚ))) = "portrait" ↔
        11/20 ≤ (1280 : ℚ) / (720 : ℚ) ∧ (1280 : ℚ) / (720 : ℚ) ≤ 29/50)
    ∧ (prefixFor (classifyRatio ((1280 : ℚ) / (720 : ℚ))) = "other" ↔
        ¬(17/10 ≤ (1280 : ℚ) / (720 : ℚ) ∧ (1280 : ℚ) / (720 : ℚ) ≤ 18/10)
        ∧ ¬(11/20 ≤ (1280 : ℚ) / (720 : ℚ) ∧ (1280 : ℚ) / (720 : ℚ) ≤ 29/50))
    ∧ prefixFor (classifyRatio (17/10)) = "landscape"
    ∧ prefixFor (classifyRatio (18/10)) = "landscape"
    ∧ prefixFor (classifyRatio (549999/1000000)) = "other" :=
  aspect_classification 1280 720 [] (by decide) (by decide)

/-! ### Storage-locator string encoding (`"bucket,key"`) -/

/-- Go `strings.Split(s, ",")` on the character list of `s`: splits around
every comma; `Split("", ",")` is `[""]`. -/
def splitComma : List Char → List (List Char)
  | [] => [[]]
  | c :: rest =>
    if c = ',' then [] :: splitComma rest
    else
      match splitComma rest with
      | [] => [[c]]
      | p :: ps => (c :: p) :: ps

/-- The locator-decoding step of `dbVideoToSignedVideo`: split the stored
string on `","`; any field count other than two is the format error
`"invalid video URL format, expected 'bucket,key' but got: <s>"`; otherwise
the pair `(parts[0], parts[1])`. -/
def parseLocator (videoURL : String) : Except String (String × String) :=
  match splitComma videoURL.data with
  | [b, k] => .ok (String.mk b, String.mk k)
  | _ => .error ("invalid video URL format, expected 'bucket,key' but got: "
      ++ videoURL)

/-- The locator encoding of `handlerUploadVideo`:
`fmt.Sprintf("%s,%s", cfg.s3Bucket, s3Key)`. -/
def encodeLocator (bucket key : String) : String :=
  bucket ++ "," ++ key

lemma splitComma_cons (c : Char) (rest : List Char) :
    splitComma (c :: rest) =
      if c = ',' then [] :: splitComma rest
      else
        match splitComma rest with
        | [] => [[c]]
        | p :: ps => (c :: p) :: ps := rfl

lemma splitComma_ne_nil (l : List Char) : splitComma l ≠ [] := by
  cases l with
  | nil => simp [splitComma]
  | cons c rest =>
    unfold splitComma
    split_ifs
    · simp
    · cases hs : splitComma rest <;> simp

lemma splitComma_no_comma (l : List Char) (h : ',' ∉ l) :
    splitComma l = [l] := by
  induction l with
  | nil => rfl
  | cons c rest ih =>
    have hc : c ≠ ',' := fun hc => h (hc ▸ List.mem_cons_self c rest)
    have hr : ',' ∉ rest := fun hr => h (List.mem_cons_of_mem c hr)
    unfold splitComma
    rw [if_neg hc, ih hr]

lemma splitComma_append (b t : List Char) (h : ',' ∉ b) :
    splitComma (b ++ ',' :: t) = b :: splitComma t := by
  induction b with
  | nil => simp [splitComma]
  | cons c rest ih =>
    have hc : c ≠ ',' := fun hc => h (hc ▸ List.mem_cons_self c rest)
    have hr : ',' ∉ rest := fun hr => h (List.mem_cons_of_mem c hr)
    rw [List.cons_append, splitComma_cons, if_neg hc, ih hr]

lemma splitComma_length (l : List Char) :
    (splitComma l).length = l.count ',' + 1 := by
  induction l with
  | nil => rfl
  | cons c rest ih =>
    rw [splitComma_cons]
    split_ifs with hc
    · subst hc
      simp [ih, List.count_cons]
    · have hc2 : ¬(',' = c) := fun h => hc h.symm
      cases hs : splitComma rest with
      | nil => exact absurd hs (splitComma_ne_nil rest)
      | cons p ps =>
        rw [hs] at ih
        simp only [List.length_cons] at ih ⊢
        simp [List.count_cons, hc2, ih]

/-- Claim C2: encoding a comma-free bucket and key as `"bucket,key"` and
decoding yields back exactly the pair; and decoding any stored locator
string whose comma count is not exactly one fails with the format error. -/
theorem locator_roundtrip (bucket key s : String)
    (hb : ',' ∉ bucket.data) (hk : ',' ∉ key.data)
    (hs : s.data.count ',' ≠ 1) :
    parseLocator (encodeLocator bucket key) = .ok (bucket, key)
    ∧ parseLocator s =
        .error ("invalid video URL format, expected 'bucket,key' but got: "
          ++ s) := by
  constructor
  · have hdata : (encodeLocator bucket key).data =
        bucket.data ++ ',' :: key.data := by
      simp [encodeLocator]
    unfold parseLocator
    rw [hdata, splitComma_append _ _ hb, splitComma_no_comma _ hk]
  · unfold parseLocator
    have hlen : (splitComma s.data).length ≠ 2 := by
      rw [splitComma_length]
      omega
    cases h1 : splitComma s.data with
    | nil => rfl
    | cons p ps =>
      cases ps with
      | nil => rfl
      | cons q qs =>
        cases qs with
        | nil =>
          rw [h1] at hlen
          simp at hlen
        | cons r rs => rfl

/-- Witness for C2 at bucket `"tubely-bkt"`, key `"landscape/k.mp4"` and the
comma-free malformed locator `"no-separator"`. -/
theorem locator_roundtrip_witness :
    parseLocator (encodeLocator "tubely-bkt" "landscape/k.mp4") =
        .ok ("tubely-bkt", "landscape/k.mp4")
    ∧ parseLocator "no-separator" =
        .error ("invalid video URL format, expected 'bucket,key' but got: "
          ++ "no-separator") :=
  locator_roundtrip "tubely-bkt" "landscape/k.mp4" "no-separator"
    (by decide) (by decide) (by decide)

/-! ### The upload handler -/

/-- The fields of `database.Video` that the upload pipeline reads or writes
(`ID`, `UserID`, `VideoURL`); the remaining metadata fields do not affect
it. IDs are kept as opaque strings. -/
structure Video where
  id : String
  userID : String
  videoURL : Option String
deriving DecidableEq

/-- The fields of `apiConfig` the video-upload path uses. -/
structure ApiConfig where
  jwtSecret : String
  s3Bucket : String
  s3Region : String
deriving DecidableEq

/-- One successful `PutObject` call: bucket, key, the local path whose
contents form the body, and the attached content type. -/
structure PutCall where
  bucket : String
  key : String
  bodyPath : String
  contentType : String
deriving DecidableEq

/-- The response written by the handler: `respondWithError` with a status
and message, or `respondWithJSON` with a status and the video payload. -/
inductive HttpResponse where
  | error (status : Nat) (message : String)
  | json (status : Nat) (video : Video)
deriving DecidableEq

def HttpResponse.status : HttpResponse → Nat
  | .error s _ => s
  | .json s _ => s

def HttpResponse.isSuccess : HttpResponse → Bool
  | .error _ _ => false
  | .json _ _ => true

/-- `net/http` status constants used by the handlers. -/
def statusOK : Nat := 200
def statusBadRequest : Nat := 400
def statusUnauthorized : Nat := 401
def statusForbidden : Nat := 403
def statusRequestEntityTooLarge : Nat := 413
def statusUnsupportedMediaType : Nat := 415
def statusInternalServerError : Nat := 500

/-- The steps `handlerUploadVideo` attempts, in source order. -/
inductive Step where
  | parseVideoID
  | getBearerToken
  | validateJWT
  | getVideo
  | ownershipCheck
  | parseMultipartForm
  | formFile
  | parseMediaType
  | mediaTypeCheck
  | createTemp
  | copyToTemp
  | probeAspect
  | remux
  | openProcessed
  | seekTemp
  | randKey
  | putObject
  | updateVideo
  | signVideo
  | respond
deriving DecidableEq

/-- Outcome oracle for every fallible external call `handlerUploadVideo`
makes, one field per call site. `none`/`false`/`.error` means that call
fails at that site; values carry the successful result. -/
structure UploadEnv where
  /-- `uuid.Parse(r.PathValue("videoID"))`: the parsed video id. -/
  parsedVideoID : Option String
  /-- `auth.GetBearerToken(r.Header)`. -/
  bearerToken : Option String
  /-- `auth.ValidateJWT(token, cfg.jwtSecret)`: token → user id. -/
  validateJWT : String → Option String
  /-- `cfg.db.GetVideo(videoID)`. -/
  getVideo : String → Option Video
  /-- Size in bytes of the request body (bounded by `MaxBytesReader`). -/
  bodySize : Nat
  /-- A `ParseMultipartForm` failure unrelated to the size bound. -/
  formParseFails : Bool
  /-- `r.FormFile("video")`: the part's `Content-Type` header. -/
  formFileContentType : Option String
  /-- `mime.ParseMediaType`: header value → media type. -/
  parseMediaType : String → Option String
  /-- `os.CreateTemp("", "tubely-upload.mp4")`: the temp file's name. -/
  tempPath : Option String
  /-- `io.Copy(tempFile, file)`. -/
  copyOk : Bool
  /-- The ffprobe run and JSON parse inside `getVideoAspectRatio`. -/
  probeResult : Except String FFProbeOutput
  /-- The ffmpeg run inside `processVideoForFastStart`. -/
  remuxOk : Bool
  /-- `os.Open(processedFilePath)`. -/
  openProcessedOk : Bool
  /-- `tempFile.Seek(0, io.SeekStart)`. -/
  seekOk : Bool
  /-- `rand.Read(randomBytes)`. -/
  randOk : Bool
  /-- `base64.RawURLEncoding.EncodeToString(randomBytes)`. -/
  randString : String
  /-- `cfg.s3Client.PutObject`. -/
  putOk : Bool
  /-- `cfg.db.UpdateVideo(video)`. -/
  updateOk : Bool
  /-- `presignClient.PresignGetObject` inside `generatePresignedURL`. -/
  presignURL : Option String

/-- Everything observable when the handler returns: the written response,
the temporary files of this call still existing, the successful
object-store writes, the successful record updates, and the step trace. -/
structure RunResult where
  response : HttpResponse
  files : List String
  puts : List PutCall
  updates : List Video
  trace : List Step

/-- `processVideoForFastStart`: derives `filePath + ".processing"` and runs
ffmpeg (`-c copy -movflags faststart`); nonzero exit is an error, success
returns the output path. -/
def processVideoForFastStart (remuxOk : Bool) (filePath : String) :
    Except String String :=
  let outputPath := filePath ++ ".processing"
  match remuxOk with
  | false => .error "failed to process video with ffmpeg"
  | true => .ok outputPath

/-- `generatePresignedURL`: `PresignGetObject` on (bucket, key) with the
given expiry, modelled by the oracle `presignResult`. -/
def generatePresignedURL (presignResult : Option String)
    (bucket key : String) : Except String String :=
  match presignResult with
  | none => .error "failed to create presigned URL"
  | some url => .ok url

/-- `dbVideoToSignedVideo`: a `nil` or empty `VideoURL` is returned as-is
with no error; otherwise the locator is split on `","` (field count two
required), presigned with a 1 hour expiry, and the presigned URL replaces
the locator. -/
def dbVideoToSignedVideo (presignResult : Option String) (video : Video) :
    Except String Video :=
  match video.videoURL with
  | none => .ok video
  | some url =>
    if url = "" then .ok video
    else
      match parseLocator url with
      | .error e => .error e
      | .ok (bucket, key) =>
        match generatePresignedURL presignResult bucket key with
        | .error e => .error ("failed to generate presigned URL: " ++ e)
        | .ok presignedURL => .ok { video with videoURL := some presignedURL }

/-- Deferred `os.Remove` calls run on return (LIFO): remove each deferred
path from the set of existing files. -/
def releaseAll (files deferred : List String) : List String :=
  deferred.foldl (fun fs p => fs.erase p) files

/-- `handlerUploadVideo`, translated step by step. Each early `return`
yields the response written at that point; `files` applies the deferred
removes registered so far to the temp files created so far. The 1 GiB
bound set by `http.MaxBytesReader(w, r.Body, 1<<30)` surfaces as a
`ParseMultipartForm` error when the body exceeds it. -/
def handlerUploadVideo (cfg : ApiConfig) (env : UploadEnv) : RunResult :=
  match env.parsedVideoID with
  | none =>
    { response := .error statusBadRequest "Invalid video ID",
      files := [], puts := [], updates := [], trace := [.parseVideoID] }
  | some videoID =>
  match env.bearerToken with
  | none =>
    { response := .error statusUnauthorized "Couldn't find JWT",
      files := [], puts := [], updates := [],
      trace := [.parseVideoID, .getBearerToken] }
  | some token =>
  match env.validateJWT token with
  | none =>
    { response := .error statusUnauthorized "Couldn't validate JWT",
      files := [], puts := [], updates := [],
      trace := [.parseVideoID, .getBearerToken, .validateJWT] }
  | some userID =>
  match env.getVideo videoID with
  | none =>
    { response := .error statusInternalServerError "Couldn't get video",
      files := [], puts := [], updates := [],
      trace := [.parseVideoID, .getBearerToken, .validateJWT, .getVideo] }
  | some video =>
  if video.userID ≠ userID then
    { response := .error statusUnauthorized
        "User not authorized to update this video",
      files := [], puts := [], updates := [],
      trace := [.parseVideoID, .getBearerToken, .validateJWT, .getVideo,
        .ownershipCheck] }
  else
  if 1 <<< 30 < env.bodySize ∨ env.formParseFails = true then
    { response := .error statusBadRequest "Couldn't parse form",
      files := [], puts := [], updates := [],
      trace := [.parseVideoID, .getBearerToken, .validateJWT, .getVideo,
        .ownershipCheck, .parseMultipartForm] }
  else
  match env.formFileContentType with
  | none =>
    { response := .error statusBadRequest "Couldn't get video file from form",
      files := [], puts := [], updates := [],
      trace := [.parseVideoID, .getBearerToken, .validateJWT, .getVideo,
        .ownershipCheck, .parseMultipartForm, .formFile] }
  | some contentType =>
  match env.parseMediaType contentType with
  | none =>
    { response := .error statusBadRequest "Invalid Content-Type header",
      files := [], puts := [], updates := [],
      trace := [.parseVideoID, .getBearerToken, .validateJWT, .getVideo,
        .ownershipCheck, .parseMultipartForm, .formFile, .parseMediaType] }
  | some mediaType =>
  if mediaType ≠ "video/mp4" then
    { response := .error statusBadRequest
        "Invalid file type. Only MP4 videos are allowed",
      files := [], puts := [], updates := [],
      trace := [.parseVideoID, .getBearerToken, .validateJWT, .getVideo,
        .ownershipCheck, .parseMultipartForm, .formFile, .parseMediaType,
        .mediaTypeCheck] }
  else
  match env.tempPath with
  | none =>
    { response := .error statusInternalServerError
        "Couldn't create temporary file",
      files := [], puts := [], updates := [],
      trace := [.parseVideoID, .getBearerToken, .validateJWT, .getVideo,
        .ownershipCheck, .parseMultipartForm, .formFile, .parseMediaType,
        .mediaTypeCheck, .createTemp] }
  | some tempFileName =>
  match env.copyOk with
  | false =>
    { response := .error statusInternalServerError
        "Couldn't write to temporary file",
      files := releaseAll [tempFileName] [tempFileName],
      puts := [], updates := [],
      trace := [.parseVideoID, .getBearerToken, .validateJWT, .getVideo,
        .ownershipCheck, .parseMultipartForm, .formFile, .parseMediaType,
        .mediaTypeCheck, .createTemp, .copyToTemp] }
  | true =>
  match getVideoAspectRatio env.probeResult with
  | .error _ =>
    { response := .error statusInternalServerError
        "Couldn't determine video aspect ratio",
      files := releaseAll [tempFileName] [tempFileName],
      puts := [], updates := [],
      trace := [.parseVideoID, .getBearerToken, .validateJWT, .getVideo,
        .ownershipCheck, .parseMultipartForm, .formFile, .parseMediaType,
        .mediaTypeCheck, .createTemp, .copyToTemp, .probeAspect] }
  | .ok aspectRatio =>
  match processVideoForFastStart env.remuxOk tempFileName with
  | .error _ =>
    { response := .error statusInternalServerError
        "Couldn't process video for fast start",
      files := releaseAll [tempFileName] [tempFileName],
      puts := [], updates := [],
      trace := [.parseVideoID, .getBearerToken, .validateJWT, .getVideo,
        .ownershipCheck, .parseMultipartForm, .formFile, .parseMediaType,
        .mediaTypeCheck, .createTemp, .copyToTemp, .probeAspect, .remux] }
  | .ok processedFilePath =>
  match env.openProcessedOk with
  | false =>
    { response := .error statusInternalServerError
        "Couldn't open processed file",
      files := releaseAll [tempFileName, processedFilePath]
        [processedFilePath, tempFileName],
      puts := [], updates := [],
      trace := [.parseVideoID, .getBearerToken, .validateJWT, .getVideo,
        .ownershipCheck, .parseMultipartForm, .formFile, .parseMediaType,
        .mediaTypeCheck, .createTemp, .copyToTemp, .probeAspect, .remux,
        .openProcessed] }
  | true =>
  let pfx := prefixFor aspectRatio
  match env.seekOk with
  | false =>
    { response := .error statusInternalServerError
        "Couldn't reset file pointer",
      files := releaseAll [tempFileName, processedFilePath]
        [processedFilePath, tempFileName],
      puts := [], updates := [],
      trace := [.parseVideoID, .getBearerToken, .validateJWT, .getVideo,
        .ownershipCheck, .parseMultipartForm, .formFile, .parseMediaType,
        .mediaTypeCheck, .createTemp, .copyToTemp, .probeAspect, .remux,
        .openProcessed, .seekTemp] }
  | true =>
  match env.randOk with
  | false =>
    { response := .error statusInternalServerError
        "Couldn't generate random key",
      files := releaseAll [tempFileName, processedFilePath]
        [processedFilePath, tempFileName],
      puts := [], updates := [],
      trace := [.parseVideoID, .getBearerToken, .validateJWT, .getVideo,
        .ownershipCheck, .parseMultipartForm, .formFile, .parseMediaType,
        .mediaTypeCheck, .createTemp, .copyToTemp, .probeAspect, .remux,
        .openProcessed, .seekTemp, .randKey] }
  | true =>
  let s3Key := pfx ++ "/" ++ env.randString ++ ".mp4"
  let put : PutCall :=
    { bucket := cfg.s3Bucket, key := s3Key,
      bodyPath := processedFilePath, contentType := mediaType }
  match env.putOk with
  | false =>
    { response := .error statusInternalServerError "Couldn't upload to S3",
      files := releaseAll [tempFileName, processedFilePath]
        [processedFilePath, tempFileName],
      puts := [], updates := [],
      trace := [.parseVideoID, .getBearerToken, .validateJWT, .getVideo,
        .ownershipCheck, .parseMultipartForm, .formFile, .parseMediaType,
        .mediaTypeCheck, .createTemp, .copyToTemp, .probeAspect, .remux,
        .openProcessed, .seekTemp, .randKey, .putObject] }
  | true =>
  let videoURL := encodeLocator cfg.s3Bucket s3Key
  let video2 : Video := { video with videoURL := some videoURL }
  match env.updateOk with
  | false =>
    { response := .error statusInternalServerError "Couldn't update video",
      files := releaseAll [tempFileName, processedFilePath]
        [processedFilePath, tempFileName],
      puts := [put], updates := [],
      trace := [.parseVideoID, .getBearerToken, .validateJWT, .getVideo,
        .ownershipCheck, .parseMultipartForm, .formFile, .parseMediaType,
        .mediaTypeCheck, .createTemp, .copyToTemp, .probeAspect, .remux,
        .openProcessed, .seekTemp, .randKey, .putObject, .updateVideo] }
  | true =>
  match dbVideoToSignedVideo env.presignURL video2 with
  | .error _ =>
    { response := .error statusInternalServerError
        "Couldn't generate presigned URL",
      files := releaseAll [tempFileName, processedFilePath]
        [processedFilePath, tempFileName],
      puts := [put], updates := [video2],
      trace := [.parseVideoID, .getBearerToken, .validateJWT, .getVideo,
        .ownershipCheck, .parseMultipartForm, .formFile, .parseMediaType,
        .mediaTypeCheck, .createTemp, .copyToTemp, .probeAspect, .remux,
        .openProcessed, .seekTemp, .randKey, .putObject, .updateVideo,
        .signVideo] }
  | .ok signedVideo =>
    { response := .json statusOK signedVideo,
      files := releaseAll [tempFileName, processedFilePath]
        [processedFilePath, tempFileName],
      puts := [put], updates := [video2],
      trace := [.parseVideoID, .getBearerToken, .validateJWT, .getVideo,
        .ownershipCheck, .parseMultipartForm, .formFile, .parseMediaType,
        .mediaTypeCheck, .createTemp, .copyToTemp, .probeAspect, .remux,
        .openProcessed, .seekTemp, .randKey, .putObject, .updateVideo,
        .signVideo, .respond] }

lemma releaseAll_single (t : String) : releaseAll [t] [t] = [] := by
  simp [releaseAll]

lemma releaseAll_pair (t p : String) : releaseAll [t, p] [p, t] = [] := by
  unfold releaseAll
  simp only [List.foldl_cons, List.foldl_nil]
  by_cases h : t = p
  · subst h
    simp [List.erase_cons]
  · simp [List.erase_cons, h]

/-- Claim C3: on every exit path of the upload handler — success, or
failure at any step — no temporary staged file survives the call: the
staging file and (when it was produced) the remuxed output file are both
removed before the handler returns. -/
theorem no_temp_file_survives (cfg : ApiConfig) (env : UploadEnv) :
    (handlerUploadVideo cfg env).files = [] := by
  simp only [handlerUploadVideo]
  (repeat' split) <;>
    first
    | rfl
    | exact releaseAll_single _
    | exact releaseAll_pair _ _

/-! ### Concrete configurations and environments for witnesses -/

/-- A concrete configuration. -/
def cfgW : ApiConfig :=
  { jwtSecret := "secret", s3Bucket := "tubely-bkt", s3Region := "us-east-1" }

/-- A concrete environment in which every external call succeeds: the
caller `"alice"` owns video `"vid-1"` and uploads a 1280×720 mp4. -/
def envOk : UploadEnv :=
  { parsedVideoID := some "vid-1"
    bearerToken := some "tok"
    validateJWT := fun _ => some "alice"
    getVideo := fun _ =>
      some { id := "vid-1", userID := "alice", videoURL := none }
    bodySize := 1024
    formParseFails := false
    formFileContentType := some "video/mp4"
    parseMediaType := fun ct => some ct
    tempPath := some "/tmp/tubely-upload.mp4"
    copyOk := true
    probeResult := .ok { streams := [{ width := 1280, height := 720 }] }
    remuxOk := true
    openProcessedOk := true
    seekOk := true
    randOk := true
    randString := "rand43"
    putOk := true
    updateOk := true
    presignURL := some "https://signed.example/obj" }

/-- `envOk` but the stored record is owned by `"bob"`, not the caller. -/
def envNonOwner : UploadEnv :=
  { envOk with
    getVideo := fun _ =>
      some { id := "vid-1", userID := "bob", videoURL := none } }

/-- Counterexample to claim C4 as stated: for the authenticated non-owner
request `envNonOwner`, the handler responds with status 401
(`Unauthorized`), not 403 (`Forbidden`); the zero-side-effect part holds. -/
theorem nonowner_status_is_unauthorized :
    (handlerUploadVideo cfgW envNonOwner).response.status = statusUnauthorized
    ∧ statusUnauthorized ≠ statusForbidden
    ∧ (handlerUploadVideo cfgW envNonOwner).puts = []
    ∧ (handlerUploadVideo cfgW envNonOwner).updates = [] := by
  refine ⟨rfl, by decide, rfl, rfl⟩

/-- Claim C4 (amended): an authenticated caller who does not own the target
record is rejected with status 401 Unauthorized
(`"User not authorized to update this video"`), with zero object-store
writes and zero record updates. -/
theorem nonowner_rejected (cfg : ApiConfig) (env : UploadEnv)
    (vid tok uid : String) (video : Video)
    (h1 : env.parsedVideoID = some vid) (h2 : env.bearerToken = some tok)
    (h3 : env.validateJWT tok = some uid) (h4 : env.getVideo vid = some video)
    (h5 : video.userID ≠ uid) :
    (handlerUploadVideo cfg env).response =
        .error statusUnauthorized "User not authorized to update this video"
    ∧ (handlerUploadVideo cfg env).puts = []
    ∧ (handlerUploadVideo cfg env).updates = [] := by
  simp only [handlerUploadVideo, h1, h2, h3, h4]
  rw [if_pos h5]
  exact ⟨rfl, rfl, rfl⟩

/-- Witness for the amended C4 at `envNonOwner`. -/
theorem nonowner_rejected_witness :
    (handlerUploadVideo cfgW envNonOwner).response =
        .error statusUnauthorized "User not authorized to update this video"
    ∧ (handlerUploadVideo cfgW envNonOwner).puts = []
    ∧ (handlerUploadVideo cfgW envNonOwner).updates = [] :=
  nonowner_rejected cfgW envNonOwner "vid-1" "tok" "alice"
    { id := "vid-1", userID := "bob", videoURL := none }
    rfl rfl rfl rfl (by decide)

/-- `envOk` but the file part declares content type `video/webm`. -/
def envBadType : UploadEnv :=
  { envOk with formFileContentType := some "video/webm" }

/-- Counterexample to claim C6 as stated: with declared content type
`video/webm`, the handler responds with status 400 (`BadRequest`), not 415
(`UnsupportedMediaType`); no staging step runs and no temp file exists. -/
theorem bad_media_type_status_is_bad_request :
    (handlerUploadVideo cfgW envBadType).response.status = statusBadRequest
    ∧ statusBadRequest ≠ statusUnsupportedMediaType
    ∧ Step.createTemp ∉ (handlerUploadVideo cfgW envBadType).trace
    ∧ (handlerUploadVideo cfgW envBadType).files = [] := by
  refine ⟨rfl, by decide, by decide, rfl⟩

/-- Claim C6 (amended): a declared media type other than `video/mp4` is
rejected with status 400 and the descriptive message
`"Invalid file type. Only MP4 videos are allowed"`; no staging file is
created (the staging steps never run and no temp file exists on return). -/
theorem bad_media_type_rejected (cfg : ApiConfig) (env : UploadEnv)
    (vid tok uid ct mt : String) (video : Video)
    (h1 : env.parsedVideoID = some vid) (h2 : env.bearerToken = some tok)
    (h3 : env.validateJWT tok = some uid) (h4 : env.getVideo vid = some video)
    (h5 : video.userID = uid)
    (h6 : ¬(1 <<< 30 < env.bodySize ∨ env.formParseFails = true))
    (h7 : env.formFileContentType = some ct)
    (h8 : env.parseMediaType ct = some mt)
    (h9 : mt ≠ "video/mp4") :
    (handlerUploadVideo cfg env).response =
        .error statusBadRequest "Invalid file type. Only MP4 videos are allowed"
    ∧ Step.createTemp ∉ (handlerUploadVideo cfg env).trace
    ∧ Step.copyToTemp ∉ (handlerUploadVideo cfg env).trace
    ∧ (handlerUploadVideo cfg env).files = []
    ∧ (handlerUploadVideo cfg env).puts = [] := by
  simp only [handlerUploadVideo, h1, h2, h3, h4, h7, h8]
  rw [if_neg (by simp [h5]), if_neg h6, if_pos h9]
  exact ⟨rfl, by decide, by decide, rfl, rfl⟩

/-- Witness for the amended C6 at `envBadType`. -/
theorem bad_media_type_rejected_witness :
    (handlerUploadVideo cfgW envBadType).response =
        .error statusBadRequest "Invalid file type. Only MP4 videos are allowed"
    ∧ Step.createTemp ∉ (handlerUploadVideo cfgW envBadType).trace
    ∧ Step.copyToTemp ∉ (handlerUploadVideo cfgW envBadType).trace
    ∧ (handlerUploadVideo cfgW envBadType).files = []
    ∧ (handlerUploadVideo cfgW envBadType).puts = [] :=
  bad_media_type_rejected cfgW envBadType "vid-1" "tok" "alice"
    "video/webm" "video/webm"
    { id := "vid-1", userID := "alice", videoURL := none }
    rfl rfl rfl rfl rfl (by decide) rfl rfl (by decide)

/-- `envOk` but the request body is one byte over the 1 GiB bound. -/
def envOversize : UploadEnv :=
  { envOk with bodySize := 1 <<< 30 + 1 }

/-- Counterexample to claim C7 as stated: for a body one byte over 1 GiB,
the handler responds with status 400 (`BadRequest`, message
`"Couldn't parse form"`), not 413 (`PayloadTooLarge`); the
before-any-temp-file part holds. -/
theorem oversize_status_is_bad_request :
    (handlerUploadVideo cfgW envOversize).response.status = statusBadRequest
    ∧ statusBadRequest ≠ statusRequestEntityTooLarge
    ∧ Step.createTemp ∉ (handlerUploadVideo cfgW envOversize).trace
    ∧ (handlerUploadVideo cfgW envOversize).files = [] := by
  refine ⟨rfl, by decide, by decide, rfl⟩

/-- Claim C7 (amended): a request body exceeding the 1 GiB bound is
rejected with status 400 (`"Couldn't parse form"`, the surfaced
`MaxBytesReader` failure), and the rejection happens before any temporary
file is created. -/
theorem oversize_rejected (cfg : ApiConfig) (env : UploadEnv)
    (vid tok uid : String) (video : Video)
    (h1 : env.parsedVideoID = some vid) (h2 : env.bearerToken = some tok)
    (h3 : env.validateJWT tok = some uid) (h4 : env.getVideo vid = some video)
    (h5 : video.userID = uid)
    (h6 : 1 <<< 30 < env.bodySize) :
    (handlerUploadVideo cfg env).response =
        .error statusBadRequest "Couldn't parse form"
    ∧ Step.createTemp ∉ (handlerUploadVideo cfg env).trace
    ∧ Step.copyToTemp ∉ (handlerUploadVideo cfg env).trace
    ∧ (handlerUploadVideo cfg env).files = []
    ∧ (handlerUploadVideo cfg env).puts = [] := by
  simp only [handlerUploadVideo, h1, h2, h3, h4]
  rw [if_neg (by simp [h5]), if_pos (Or.inl h6)]
  exact ⟨rfl, by decide, by decide, rfl, rfl⟩

/-- Witness for the amended C7 at `envOversize`. -/
theorem oversize_rejected_witness :
    (handlerUploadVideo cfgW envOversize).response =
        .error statusBadRequest "Couldn't parse form"
    ∧ Step.createTemp ∉ (handlerUploadVideo cfgW envOversize).trace
    ∧ Step.copyToTemp ∉ (handlerUploadVideo cfgW envOversize).trace
    ∧ (handlerUploadVideo cfgW envOversize).files = []
    ∧ (handlerUploadVideo cfgW envOversize).puts = [] :=
  oversize_rejected cfgW envOversize "vid-1" "tok" "alice"
    { id := "vid-1", userID := "alice", videoURL := none }
    rfl rfl rfl rfl rfl (by decide)

lemma append_processing_ne (t : String) : t ++ ".processing" ≠ t := by
  intro h
  have hlen := congrArg String.length h
  rw [String.length_append] at hlen
  have h11 : (".processing" : String).length = 11 := rfl
  rw [h11] at hlen
  omega

/-- Claim C5: any object-store write the handler performs uploads the
remuxed file `tempPath ++ ".processing"` — never the original staged file —
under the derived `<prefix>/<random>.mp4` key, with the declared (and
necessarily `video/mp4`) media type attached; and a success response
implies such a write happened. -/
theorem upload_uses_processed_file (cfg : ApiConfig) (env : UploadEnv)
    (t a : String)
    (ht : env.tempPath = some t)
    (ha : getVideoAspectRatio env.probeResult = .ok a) :
    ((handlerUploadVideo cfg env).response.isSuccess = true →
        (handlerUploadVideo cfg env).puts ≠ [])
    ∧ ((handlerUploadVideo cfg env).puts = []
      ∨ ((handlerUploadVideo cfg env).puts =
          [{ bucket := cfg.s3Bucket,
             key := prefixFor a ++ "/" ++ env.randString ++ ".mp4",
             bodyPath := t ++ ".processing",
             contentType := "video/mp4" }]
        ∧ t ++ ".processing" ≠ t)) := by
  simp only [handlerUploadVideo, ht, ha, processVideoForFastStart]
  cases hrm : env.remuxOk <;>
    simp only [hrm] <;>
    (repeat' split) <;>
      first
      | exact ⟨by simp [HttpResponse.isSuccess], Or.inl rfl⟩
      | (refine ⟨?_, Or.inr ⟨?_, append_processing_ne t⟩⟩ <;>
          simp_all [HttpResponse.isSuccess])

/-- Witness for C5 at the all-success environment `envOk`. -/
theorem upload_uses_processed_file_witness :
    ((handlerUploadVideo cfgW envOk).response.isSuccess = true →
        (handlerUploadVideo cfgW envOk).puts ≠ [])
    ∧ ((handlerUploadVideo cfgW envOk).puts = []
      ∨ ((handlerUploadVideo cfgW envOk).puts =
          [{ bucket := cfgW.s3Bucket,
             key := prefixFor "16:9" ++ "/" ++ envOk.randString ++ ".mp4",
             bodyPath := "/tmp/tubely-upload.mp4" ++ ".processing",
             contentType := "video/mp4" }]
        ∧ "/tmp/tubely-upload.mp4" ++ ".processing"
            ≠ "/tmp/tubely-upload.mp4")) :=
  upload_uses_processed_file cfgW envOk "/tmp/tubely-upload.mp4" "16:9" rfl
    (by
      show getVideoAspectRatio
          (.ok { streams := [{ width := 1280, height := 720 }] }) = .ok "16:9"
      unfold getVideoAspectRatio
      dsimp only
      rw [if_neg (by norm_num)]
      unfold classifyRatio
      rw [if_pos (by norm_num)])

/-- The full step sequence of a fully successful run, in source order. -/
def fullUploadTrace : List Step :=
  [.parseVideoID, .getBearerToken, .validateJWT, .getVideo, .ownershipCheck,
   .parseMultipartForm, .formFile, .parseMediaType, .mediaTypeCheck,
   .createTemp, .copyToTemp, .probeAspect, .remux, .openProcessed,
   .seekTemp, .randKey, .putObject, .updateVideo, .signVideo, .respond]

/-- Claim C8: every run's trace is a prefix of `fullUploadTrace`, whose
first six steps are video-id parse, bearer-token fetch, JWT validation,
record fetch, ownership check, body parse — so the ownership check
happens strictly before request bytes are staged to disk. -/
theorem validation_order (cfg : ApiConfig) (env : UploadEnv) :
    fullUploadTrace.take 6 =
        [Step.parseVideoID, Step.getBearerToken, Step.validateJWT,
         Step.getVideo, Step.ownershipCheck, Step.parseMultipartForm]
    ∧ fullUploadTrace.take (handlerUploadVideo cfg env).trace.length =
        (handlerUploadVideo cfg env).trace
    ∧ (Step.copyToTemp ∉ (handlerUploadVideo cfg env).trace
      ∨ (Step.ownershipCheck ∈ (handlerUploadVideo cfg env).trace
        ∧ (handlerUploadVideo cfg env).trace.indexOf Step.ownershipCheck <
            (handlerUploadVideo cfg env).trace.indexOf Step.copyToTemp)) := by
  refine ⟨by decide, ?_, ?_⟩ <;>
    (simp only [handlerUploadVideo]; (repeat' split) <;> (dsimp only; decide))

/-- Witness for C8 at the all-success environment `envOk`. -/
theorem validation_order_witness :
    fullUploadTrace.take 6 =
        [Step.parseVideoID, Step.getBearerToken, Step.validateJWT,
         Step.getVideo, Step.ownershipCheck, Step.parseMultipartForm]
    ∧ fullUploadTrace.take (handlerUploadVideo cfgW envOk).trace.length =
        (handlerUploadVideo cfgW envOk).trace
    ∧ (Step.copyToTemp ∉ (handlerUploadVideo cfgW envOk).trace
      ∨ (Step.ownershipCheck ∈ (handlerUploadVideo cfgW envOk).trace
        ∧ (handlerUploadVideo cfgW envOk).trace.indexOf Step.ownershipCheck <
            (handlerUploadVideo cfgW envOk).trace.indexOf Step.copyToTemp)) :=
  validation_order cfgW envOk

/-- Claim C9: a record whose stored `VideoURL` is `nil` or the empty string
is returned unchanged by `dbVideoToSignedVideo` with no error. -/
theorem absent_locator_tolerated (presignResult : Option String)
    (video : Video)
    (h : video.videoURL = none ∨ video.videoURL = some "") :
    dbVideoToSignedVideo presignResult video = .ok video := by
  unfold dbVideoToSignedVideo
  rcases h with h | h <;> rw [h] <;> simp

/-- Witness for C9 on a record with no locator and one with an empty one. -/
theorem absent_locator_tolerated_witness :
    dbVideoToSignedVideo none { id := "v", userID := "u", videoURL := none } =
        .ok { id := "v", userID := "u", videoURL := none }
    ∧ dbVideoToSignedVideo none
        { id := "v", userID := "u", videoURL := some "" } =
        .ok { id := "v", userID := "u", videoURL := some "" } :=
  ⟨absent_locator_tolerated none _ (Or.inl rfl),
   absent_locator_tolerated none _ (Or.inr rfl)⟩

/-- `envOk` but presigned-URL generation fails. -/
def envPresignFail : UploadEnv := { envOk with presignURL := none }

/-- Claim C10: there is an execution — all steps succeed except the final
presigned-URL generation — in which the handler returns an internal-error
response (`"Couldn't generate presigned URL"`) even though exactly one
object was already uploaded to the object store and exactly one record
update was already committed; neither side effect is rolled back. -/
theorem presign_failure_after_commit :
    (handlerUploadVideo cfgW envPresignFail).response =
        .error statusInternalServerError "Couldn't generate presigned URL"
    ∧ (handlerUploadVideo cfgW envPresignFail).puts.length = 1
    ∧ (handlerUploadVideo cfgW envPresignFail).updates.length = 1 := by
  have hcl : classifyRatio (((1280 : Int) : ℚ) / ((720 : Int) : ℚ)) =
      "16:9" := by
    unfold classifyRatio
    rw [if_pos (by norm_num)]
  simp only [handlerUploadVideo, envPresignFail, envOk, cfgW,
    getVideoAspectRatio]
  rw [hcl]
  decide

end Tubely
